import Mathlib

/-!
Shallow embedding of the hotels CRUD service (src/main.py): a FastAPI app
over a SQLite table `hotels` accessed through SQLAlchemy.  The store is the
table, modelled as a list of rows in rowid (primary-key) order; the five
handlers are modelled as pure functions from request data and store state to
a response and a new store state.  Machine integers of the source (Python
ints, SQLite INTEGER) are unbounded, so they are modelled as `Int`.
-/

namespace HotelsApi

/-- A row of the `hotels` table (SQLAlchemy model `HotelDB`, src/main.py
lines 28-35).  The `id` column is declared `Integer, primary_key=True`,
which on SQLite is an `INTEGER PRIMARY KEY` (a rowid alias); every other
column is `NOT NULL`. -/
structure HotelDB where
  id : Int
  city : String
  description : String
  name : String
  rating : Int
deriving Repr, DecidableEq

/-- Response model `Hotel` (lines 56-59): the `HotelBase` fields plus `id`. -/
structure Hotel where
  city : String
  description : String
  name : String
  rating : Int
  id : Int
deriving Repr, DecidableEq

/-- Reading the attributes of a row into the response model
(`Hotel.model_validate`, enabled by `from_attributes` at line 59). -/
def Hotel.model_validate (h : HotelDB) : Hotel :=
  { city := h.city, description := h.description, name := h.name,
    rating := h.rating, id := h.id }

/-- Request body for create (pydantic `HotelCreate` = `HotelBase`,
lines 41-48): city, description, name and an integer rating.  The bound
`1 <= rating <= 5` declared by `Field(..., ge=1, le=5)` at line 45 is
checked by the request-validation step (`create_request` below), before the
handler body runs. -/
structure HotelCreate where
  city : String
  description : String
  name : String
  rating : Int
deriving Repr, DecidableEq

/-- The pydantic bound on `HotelBase.rating` (line 45). -/
def HotelCreate.ratingOk (p : HotelCreate) : Bool :=
  1 ≤ p.rating && p.rating ≤ 5

/-- Request body for partial update (pydantic `HotelUpdate`, lines 50-54):
every field optional.  `none` models a field the caller did not supply;
`hotel_update.dict(exclude_unset=True)` at line 161 keeps exactly the
supplied fields. -/
structure HotelUpdate where
  city : Option String := none
  description : Option String := none
  name : Option String := none
  rating : Option Int := none
deriving Repr, DecidableEq

/-- The pydantic bound on `HotelUpdate.rating` (line 54): when supplied it
must lie in 1..5; an absent rating is legal. -/
def HotelUpdate.ratingOk (u : HotelUpdate) : Bool :=
  match u.rating with
  | none => true
  | some r => 1 ≤ r && r ≤ 5

/-- The `hotels` table: rows in rowid (primary-key) order, which is also
insertion order because freshly assigned rowids always exceed the stored
ones (see `Store.nextId`). -/
structure Store where
  rows : List HotelDB
deriving Repr, DecidableEq

/-- The empty table, as created at line 38 on a fresh database file. -/
def emptyStore : Store := { rows := [] }

/-- The rowid SQLite assigns to the row inserted by `db.add`/`db.commit`
(lines 130-133).  The id column is an `INTEGER PRIMARY KEY` without the
`AUTOINCREMENT` keyword (line 31), so SQLite assigns one more than the
largest rowid currently in the table, and 1 when the table is empty. -/
def Store.nextId (s : Store) : Int :=
  (s.rows.map HotelDB.id).foldr max 0 + 1

/-- The query `db.query(HotelDB).filter(HotelDB.id == id).first()` used by
the three by-id handlers (lines 141, 153, 173). -/
def Store.findRow (s : Store) (id : Int) : Option HotelDB :=
  s.rows.find? (fun r => r.id == id)

/-- Outcome of one request: a success status code with a body, or an
HTTPException-style error carrying a status code and a detail string. -/
inductive ApiResult (α : Type) where
  | success (code : Nat) (body : α)
  | httpError (code : Nat) (detail : String)
deriving Repr, DecidableEq

/-- Whether a result is a 404. -/
def ApiResult.isNotFound {α : Type} : ApiResult α → Bool
  | .httpError 404 _ => true
  | _ => false

/-- The detail string of the 404 raised by the by-id handlers
(lines 145, 157, 177): the f-string interpolates the missing id. -/
def notFoundDetail (id : Int) : String :=
  "Hotel with id " ++ toString id ++ " not found"

/-- `PaginatedResponse` (lines 61-70). -/
structure PaginatedResponse where
  content : List Hotel
  last : Bool
  totalElements : Nat
  totalPages : Int
  size : Int
  number : Int
  sort : Option String
  numberOfElements : Nat
  first : Bool
deriving Repr, DecidableEq

/-- Page clamping at lines 91-92: a negative page becomes 0. -/
def clampPage (page : Int) : Int :=
  if page < 0 then 0 else page

/-- Size clamping at lines 93-96: a non-positive size becomes 100, then a
size above 1000 becomes 1000. -/
def clampSize (size : Int) : Int :=
  let size := if size ≤ 0 then 100 else size
  if size > 1000 then 1000 else size

/-- The GET list handler `get_all_hotels` (lines 83-123).  The query
`offset(offset).limit(size)` returns the rows in rowid order with the
first `offset` skipped and at most `size` taken; both arguments are
non-negative after clamping, which `Int.toNat` records. -/
def get_all_hotels (page size : Int) (sort : Option String) (db : Store) :
    PaginatedResponse :=
  let page := clampPage page
  let size := clampSize size
  let offset := page * size
  let total := db.rows.length
  let hotels_list_db := (db.rows.drop offset.toNat).take size.toNat
  let hotels_list := hotels_list_db.map Hotel.model_validate
  let total_pages : Int := if size > 0 then ((total : Int) + size - 1) / size else 0
  let is_last := decide ((offset + (hotels_list.length : Int)) ≥ (total : Int))
  let is_first := decide (page = 0)
  { content := hotels_list,
    last := is_last,
    totalElements := total,
    totalPages := total_pages,
    size := size,
    number := page,
    sort := sort,
    numberOfElements := hotels_list.length,
    first := is_first }

/-- The POST handler body `create_hotel` (lines 125-135): insert the row,
the database assigns the id, return the created record. -/
def create_hotel (hotel : HotelCreate) (db : Store) : Hotel × Store :=
  let db_hotel : HotelDB :=
    { id := db.nextId, city := hotel.city, description := hotel.description,
      name := hotel.name, rating := hotel.rating }
  (Hotel.model_validate db_hotel, { rows := db.rows ++ [db_hotel] })

/-- The POST endpoint including FastAPI body validation: a rating outside
1..5 is rejected with a 422 before the handler body runs, leaving the
store untouched. -/
def create_request (hotel : HotelCreate) (db : Store) : ApiResult Hotel × Store :=
  if hotel.ratingOk then
    let r := create_hotel hotel db
    (.success 201 r.1, r.2)
  else
    (.httpError 422 "validation error", db)

/-- The GET by-id handler `get_hotel_by_id` (lines 137-147). -/
def get_hotel_by_id (id : Int) (db : Store) : ApiResult Hotel :=
  match db.findRow id with
  | none => .httpError 404 (notFoundDetail id)
  | some h => .success 200 (Hotel.model_validate h)

/-- The setattr loop of lines 160-163: each field present in the update
overwrites the stored value, absent fields keep the stored value.  The id
attribute is never touched because `HotelUpdate` has no id field. -/
def applyUpdate (u : HotelUpdate) (h : HotelDB) : HotelDB :=
  { h with
    city := u.city.getD h.city,
    description := u.description.getD h.description,
    name := u.name.getD h.name,
    rating := u.rating.getD h.rating }

/-- The PUT handler `update_hotel` (lines 149-167): 404 when the id is
absent (no mutation), otherwise the found row is mutated in place and the
updated record is returned with status 200. -/
def update_hotel (id : Int) (hotel_update : HotelUpdate) (db : Store) :
    ApiResult Hotel × Store :=
  match db.findRow id with
  | none => (.httpError 404 (notFoundDetail id), db)
  | some h =>
    (.success 200 (Hotel.model_validate (applyUpdate hotel_update h)),
     { rows := db.rows.map (fun r => if r.id == id then applyUpdate hotel_update r else r) })

/-- The PUT endpoint including FastAPI body validation (line 54): a
supplied rating outside 1..5 is rejected with a 422 before the handler
body runs, leaving the store untouched. -/
def update_request (id : Int) (u : HotelUpdate) (db : Store) :
    ApiResult Hotel × Store :=
  if u.ratingOk then update_hotel id u db
  else (.httpError 422 "validation error", db)

/-- The DELETE handler `delete_hotel` (lines 169-181): 404 when the id is
absent (no mutation), otherwise the found row is removed and 204 with an
empty body is returned. -/
def delete_hotel (id : Int) (db : Store) : ApiResult Unit × Store :=
  match db.findRow id with
  | none => (.httpError 404 (notFoundDetail id), db)
  | some _ => (.success 204 (), { rows := db.rows.eraseP (fun r => r.id == id) })

/-- One request accepted through the public interface (the list endpoint
never mutates the store and is omitted). -/
inductive Op where
  | create (p : HotelCreate)
  | update (id : Int) (u : HotelUpdate)
  | delete (id : Int)
deriving Repr

/-- The store state after serving one request. -/
def step (db : Store) (op : Op) : Store :=
  match op with
  | .create p => (create_request p db).2
  | .update id u => (update_request id u db).2
  | .delete id => (delete_hotel id db).2

/-- The store state after serving a sequence of requests against a fresh
database. -/
def run (ops : List Op) : Store :=
  ops.foldl step emptyStore

/-- Data-model invariant (spec section 3): pairwise distinct ids and
every stored rating in 1..5. -/
def StoreWF (s : Store) : Prop :=
  s.rows.Pairwise (fun a b => a.id ≠ b.id) ∧
  ∀ r ∈ s.rows, 1 ≤ r.rating ∧ r.rating ≤ 5

/-- A concrete store of 250 records (ids 1..250), for the pagination
scenario of the spec. -/
def store250 : Store :=
  { rows := (List.range 250).map (fun (i : Nat) =>
      { id := (i : Int) + 1, city := "city", description := "d",
        name := "n", rating := 3 }) }

/-! Helper lemmas. -/

lemma le_foldr_max (l : List Int) (x : Int) (hx : x ∈ l) : x ≤ l.foldr max 0 := by
  induction l with
  | nil => cases hx
  | cons a t ih =>
    rcases List.mem_cons.mp hx with h | h
    · simp [h, le_max_left a (t.foldr max 0)]
    · exact le_trans (ih h) (le_max_right a (t.foldr max 0))

lemma id_lt_nextId (s : Store) (r : HotelDB) (hr : r ∈ s.rows) : r.id < s.nextId := by
  have h := le_foldr_max (s.rows.map HotelDB.id) r.id (List.mem_map_of_mem _ hr)
  unfold Store.nextId
  omega

lemma applyUpdate_id (u : HotelUpdate) (h : HotelDB) : (applyUpdate u h).id = h.id := rfl

lemma clampPage_nonneg (page : Int) : 0 ≤ clampPage page := by
  unfold clampPage; split <;> omega

lemma clampSize_pos (size : Int) : 0 < clampSize size := by
  unfold clampSize; dsimp only; split <;> split <;> omega

lemma natCast_pred_div (t n : Nat) (hn : 0 < n) :
    ((t : Int) + (n : Int) - 1) / (n : Int) = (((t + n - 1) / n : Nat) : Int) := by
  have h1 : ((t : Int) + (n : Int) - 1) = ((t + n - 1 : Nat) : Int) := by omega
  rw [h1]
  exact (Int.natCast_div _ _).symm

lemma find?_map_update (l : List HotelDB) (id : Int) (u : HotelUpdate) (r : HotelDB)
    (h : l.find? (fun x => x.id == id) = some r) :
    (l.map (fun x => if x.id == id then applyUpdate u x else x)).find?
      (fun x => x.id == id) = some (applyUpdate u r) := by
  induction l with
  | nil => simp at h
  | cons a t ih =>
    rw [List.map_cons]
    by_cases ha : (a.id == id) = true
    · rw [List.find?_cons_of_pos t ha] at h
      injection h with h
      subst h
      rw [if_pos ha]
      exact List.find?_cons_of_pos _ (by rw [applyUpdate_id]; exact ha)
    · rw [List.find?_cons_of_neg t ha] at h
      rw [if_neg ha]
      rw [@List.find?_cons_of_neg HotelDB (fun x => x.id == id) a
        (t.map (fun x => if x.id == id then applyUpdate u x else x)) ha]
      exact ih h

lemma applyUpdate_empty (h : HotelDB) : applyUpdate {} h = h := rfl

lemma ratingOk_iff (p : HotelCreate) :
    p.ratingOk = true ↔ 1 ≤ p.rating ∧ p.rating ≤ 5 := by
  simp [HotelCreate.ratingOk]

lemma applyUpdate_rating_bounds (u : HotelUpdate) (hok : u.ratingOk = true) (h : HotelDB)
    (hb : 1 ≤ h.rating ∧ h.rating ≤ 5) :
    1 ≤ (applyUpdate u h).rating ∧ (applyUpdate u h).rating ≤ 5 := by
  cases hv : u.rating with
  | none => simpa [applyUpdate, hv] using hb
  | some v =>
    have hvb : 1 ≤ v ∧ v ≤ 5 := by
      simp [HotelUpdate.ratingOk, hv] at hok
      exact hok
    simpa [applyUpdate, hv] using hvb

lemma StoreWF_empty : StoreWF emptyStore := by
  constructor <;> simp [emptyStore]

lemma StoreWF_step (s : Store) (op : Op) (h : StoreWF s) : StoreWF (step s op) := by
  obtain ⟨hpw, hrt⟩ := h
  cases op with
  | create p =>
    by_cases hok : p.ratingOk = true
    · simp only [step, create_request, if_pos hok, create_hotel]
      constructor
      · rw [List.pairwise_append]
        refine ⟨hpw, List.pairwise_singleton _ _, ?_⟩
        intro a ha b hb
        have hb' := List.mem_singleton.mp hb
        subst hb'
        have hlt := id_lt_nextId s a ha
        intro he
        have he' : a.id = s.nextId := he
        omega
      · intro r hr
        rcases List.mem_append.mp hr with h1 | h2
        · exact hrt r h1
        · have h2' := List.mem_singleton.mp h2
          subst h2'
          exact (ratingOk_iff p).mp hok
    · simp only [step, create_request, if_neg hok]
      exact ⟨hpw, hrt⟩
  | update id u =>
    by_cases hok : u.ratingOk = true
    · simp only [step, update_request, if_pos hok]
      cases hf : s.findRow id with
      | none => simp only [update_hotel, hf]; exact ⟨hpw, hrt⟩
      | some r =>
        simp only [update_hotel, hf]
        have hgid : ∀ x : HotelDB,
            ((if x.id == id then applyUpdate u x else x) : HotelDB).id = x.id := by
          intro x; split
          · exact applyUpdate_id u x
          · rfl
        constructor
        · rw [List.pairwise_map]
          exact hpw.imp (fun hab => by rw [hgid, hgid]; exact hab)
        · intro r' hr'
          rcases List.mem_map.mp hr' with ⟨x, hx, hgx⟩
          subst hgx
          split
          · exact applyUpdate_rating_bounds u hok x (hrt x hx)
          · exact hrt x hx
    · simp only [step, update_request, if_neg hok]
      exact ⟨hpw, hrt⟩
  | delete id =>
    cases hf : s.findRow id with
    | none => simp only [step, delete_hotel, hf]; exact ⟨hpw, hrt⟩
    | some r =>
      simp only [step, delete_hotel, hf]
      have hsub := @List.eraseP_sublist HotelDB (fun x => x.id == id) s.rows
      exact ⟨hpw.sublist hsub, fun x hx => hrt x (hsub.subset hx)⟩

lemma StoreWF_foldl (ops : List Op) (s : Store) (h : StoreWF s) :
    StoreWF (ops.foldl step s) := by
  induction ops generalizing s with
  | nil => exact h
  | cons op t ih => exact ih _ (StoreWF_step s op h)

/-! Theorems settling the claims. -/

/-- C9: For every create payload and store, reading the assigned id
immediately after the create succeeds with status 200 and yields exactly
the record create returned, field for field including the id. -/
theorem get_after_create (p : HotelCreate) (db : Store) :
    get_hotel_by_id (create_hotel p db).1.id (create_hotel p db).2 =
      ApiResult.success 200 (create_hotel p db).1 := by
  have hnone :
      db.rows.find? (fun r => r.id == db.nextId) = none := by
    apply List.find?_eq_none.mpr
    intro r hr
    have h := id_lt_nextId db r hr
    simp only [beq_iff_eq]
    omega
  simp [get_hotel_by_id, create_hotel, Store.findRow, Hotel.model_validate,
    List.find?_append, hnone]

/-- C3 counterexample: with the SQLite rowid assignment (INTEGER PRIMARY
KEY without AUTOINCREMENT), creating a hotel on a fresh store assigns
id 1; deleting it and creating again reassigns the same id 1, so an id of
a deleted record is reused and the second create's id is not strictly
greater than the first's. -/
theorem id_reused_after_delete :
    (create_hotel { city := "Paris", description := "Nice", name := "Hotel A", rating := 4 }
        emptyStore).1.id = 1 ∧
    (create_hotel { city := "Paris", description := "Nice", name := "Hotel A", rating := 4 }
        (delete_hotel 1
          (create_hotel { city := "Paris", description := "Nice", name := "Hotel A", rating := 4 }
            emptyStore).2).2).1.id = 1 := by
  constructor <;> rfl

/-- C3 amended: each create assigns an id strictly greater than every id
currently stored (hence unused among the stored ids); but because SQLite
reassigns max rowid + 1, the id of a deleted record that held the maximum
can be reused by a later create, so monotonicity only holds across creates
with no intervening delete. -/
theorem create_id_gt_stored (p : HotelCreate) (db : Store) (r : HotelDB)
    (hr : r ∈ db.rows) : r.id < (create_hotel p db).1.id :=
  id_lt_nextId db r hr

/-- Witness for C3 amended at a concrete one-row store. -/
theorem create_id_gt_stored_witness :
    ({ id := 1, city := "a", description := "b", name := "c", rating := 3 } : HotelDB) ∈
      (Store.mk [{ id := 1, city := "a", description := "b", name := "c", rating := 3 }]).rows ∧
    ({ id := 1, city := "a", description := "b", name := "c", rating := 3 } : HotelDB).id <
      (create_hotel { city := "x", description := "y", name := "z", rating := 5 }
        (Store.mk [{ id := 1, city := "a", description := "b", name := "c", rating := 3 }])).1.id :=
  ⟨List.mem_singleton.mpr rfl,
   create_id_gt_stored _ _ _ (List.mem_singleton.mpr rfl)⟩

/-- C10: the returned number and size are the clamped values used for the
slice (number = clampPage page, size = clampSize size); the sort parameter
is echoed back unmodified and has no effect on the content; concretely,
page -3 with size 0 reports number 0 and size 100, and size 5000 reports
size 1000. -/
theorem response_echoes_clamped_params (page size : Int) (sort : Option String) (db : Store) :
    (get_all_hotels page size sort db).number = clampPage page ∧
    (get_all_hotels page size sort db).size = clampSize size ∧
    (get_all_hotels page size sort db).sort = sort ∧
    (∀ sort2 : Option String,
      (get_all_hotels page size sort2 db).content = (get_all_hotels page size sort db).content) ∧
    clampPage (-3) = 0 ∧ clampSize 0 = 100 ∧ clampSize 5000 = 1000 ∧
    (get_all_hotels (-3) 0 none db).number = 0 ∧
    (get_all_hotels (-3) 0 none db).size = 100 ∧
    (get_all_hotels page 5000 sort db).size = 1000 := by
  refine ⟨rfl, rfl, rfl, fun sort2 => rfl, by decide, by decide, by decide, rfl, rfl, rfl⟩

/-- C1: after clamping, the returned content is exactly the slice of the
stored ordered sequence at indices [page*size, page*size + size)
intersected with [0, total): position i of the content is the record at
index page*size + i when i < size (and nothing beyond total, since an
out-of-range index yields none); numberOfElements is the length of the
content. -/
theorem pagination_content_slice (page size : Int) (sort : Option String) (db : Store) :
    (∀ i : Nat,
      (get_all_hotels page size sort db).content[i]? =
        if i < (clampSize size).toNat then
          (db.rows[(clampPage page * clampSize size).toNat + i]?).map Hotel.model_validate
        else none) ∧
    (get_all_hotels page size sort db).numberOfElements =
      (get_all_hotels page size sort db).content.length := by
  refine ⟨fun i => ?_, rfl⟩
  simp only [get_all_hotels, List.getElem?_map, List.getElem?_take, List.getElem?_drop]
  split <;> simp

/-- C5: the response flags satisfy last = decide (page*size +
numberOfElements ≥ total) and first = decide (page = 0), with page and
size the clamped values; when page*size is at or beyond total, the content
is empty, numberOfElements is 0, last is true, and first is true exactly
when the clamped page is 0. -/
theorem pagination_flags (page size : Int) (sort : Option String) (db : Store) :
    (get_all_hotels page size sort db).last =
      decide (clampPage page * clampSize size +
        ((get_all_hotels page size sort db).numberOfElements : Int) ≥ (db.rows.length : Int)) ∧
    (get_all_hotels page size sort db).first = decide (clampPage page = 0) ∧
    (clampPage page * clampSize size ≥ (db.rows.length : Int) →
      (get_all_hotels page size sort db).content = [] ∧
      (get_all_hotels page size sort db).numberOfElements = 0 ∧
      (get_all_hotels page size sort db).last = true ∧
      ((get_all_hotels page size sort db).first = true ↔ clampPage page = 0)) := by
  refine ⟨rfl, rfl, fun hbeyond => ?_⟩
  have h0 : 0 ≤ clampPage page * clampSize size :=
    mul_nonneg (clampPage_nonneg page) (le_of_lt (clampSize_pos size))
  have hlen : db.rows.length ≤ (clampPage page * clampSize size).toNat := by omega
  have hcontent : (get_all_hotels page size sort db).content = [] := by
    simp [get_all_hotels, List.drop_eq_nil_of_le hlen]
  have hnum : (get_all_hotels page size sort db).numberOfElements = 0 := by
    simp [get_all_hotels, List.drop_eq_nil_of_le hlen]
  have hlast : (get_all_hotels page size sort db).last =
      decide (clampPage page * clampSize size +
        ((get_all_hotels page size sort db).numberOfElements : Int) ≥
          (db.rows.length : Int)) := rfl
  rw [hnum] at hlast
  have hfirst : (get_all_hotels page size sort db).first =
      decide (clampPage page = 0) := rfl
  refine ⟨hcontent, hnum, ?_, ?_⟩
  · rw [hlast]
    simp only [Nat.cast_zero, add_zero, ge_iff_le, decide_eq_true_eq]
    exact hbeyond
  · rw [hfirst]
    simp

/-- Witness for C5 at page 5, size 100 on the empty store: the beyond-end
hypothesis holds and the content is empty. -/
theorem pagination_flags_witness :
    clampPage 5 * clampSize 100 ≥ ((emptyStore.rows.length : Nat) : Int) ∧
    (get_all_hotels 5 100 none emptyStore).content = [] :=
  ⟨by decide, ((pagination_flags 5 100 none emptyStore).2.2 (by decide)).1⟩

/-- C6: totalPages is exactly (total + size - 1) / size with the clamped
size (which is always positive), equals the ceiling division of total by
size, is characterized as the least m with total ≤ size * m, and is 3 for
250 records with size 100. -/
theorem pagination_totalPages_ceil (page size : Int) (sort : Option String) (db : Store) :
    (get_all_hotels page size sort db).totalPages =
      (((db.rows.length + (clampSize size).toNat - 1) / (clampSize size).toNat : Nat) : Int) ∧
    (get_all_hotels page size sort db).totalPages =
      ((db.rows.length ⌈/⌉ (clampSize size).toNat : Nat) : Int) ∧
    (∀ m : Nat, (get_all_hotels page size sort db).totalPages ≤ (m : Int) ↔
      db.rows.length ≤ (clampSize size).toNat * m) ∧
    (get_all_hotels 0 100 none store250).totalPages = 3 := by
  have hs := clampSize_pos size
  have hn : 0 < (clampSize size).toNat := by omega
  have htp : (get_all_hotels page size sort db).totalPages =
      ((db.rows.length : Int) + clampSize size - 1) / clampSize size := by
    simp [get_all_hotels, hs]
  have hdiv : (get_all_hotels page size sort db).totalPages =
      (((db.rows.length + (clampSize size).toNat - 1) / (clampSize size).toNat : Nat) : Int) := by
    rw [htp]
    have hrw : ((db.rows.length : Int) + clampSize size - 1) / clampSize size =
        ((db.rows.length : Int) + ((clampSize size).toNat : Int) - 1) /
          ((clampSize size).toNat : Int) := by
      rw [Int.toNat_of_nonneg hs.le]
    rw [hrw, natCast_pred_div _ _ hn]
  have hceil : (get_all_hotels page size sort db).totalPages =
      ((db.rows.length ⌈/⌉ (clampSize size).toNat : Nat) : Int) := by
    rw [hdiv, Nat.ceilDiv_eq_add_pred_div]
  refine ⟨hdiv, hceil, fun m => ?_, ?_⟩
  · rw [hceil]
    rw [Int.ofNat_le]
    exact ceilDiv_le_iff_le_mul hn
  · have hcs : clampSize 100 = 100 := by decide
    have h250 : store250.rows.length = 250 := by
      unfold store250
      simp only [List.length_map, List.length_range]
    have h : (get_all_hotels 0 100 none store250).totalPages =
        ((store250.rows.length : Int) + clampSize 100 - 1) / clampSize 100 := by
      simp [get_all_hotels, clampSize_pos 100]
    rw [hcs] at h
    rw [h, h250]
    decide

/-- C2: when the id is present, PUT overwrites exactly the supplied
fields: the handler succeeds with the merged record; the stored row at
that id becomes the merge of the prior row with the update, where each
supplied field is overwritten, each omitted field and the id keep their
prior values; rows with other ids are untouched; the empty update leaves
the whole store unchanged; and a city-only update changes only the city. -/
theorem update_merge_frame (db : Store) (id : Int) (u : HotelUpdate) (r : HotelDB)
    (hfind : db.findRow id = some r) :
    (update_hotel id u db).1 =
        ApiResult.success 200 (Hotel.model_validate (applyUpdate u r)) ∧
    (update_hotel id u db).2.findRow id = some (applyUpdate u r) ∧
    (applyUpdate u r).id = r.id ∧
    (applyUpdate u r).city = u.city.getD r.city ∧
    (applyUpdate u r).description = u.description.getD r.description ∧
    (applyUpdate u r).name = u.name.getD r.name ∧
    (applyUpdate u r).rating = u.rating.getD r.rating ∧
    (∀ row ∈ db.rows, row.id ≠ id → row ∈ (update_hotel id u db).2.rows) ∧
    (u = {} → (update_hotel id u db).2 = db) ∧
    (∀ c, u = { city := some c } → applyUpdate u r = { r with city := c }) := by
  have hfind' : db.rows.find? (fun x => x.id == id) = some r := hfind
  have hsnd : (update_hotel id u db).2 =
      { rows := db.rows.map (fun x => if x.id == id then applyUpdate u x else x) } := by
    simp only [update_hotel, hfind]
  have hfst : (update_hotel id u db).1 =
      ApiResult.success 200 (Hotel.model_validate (applyUpdate u r)) := by
    simp only [update_hotel, hfind]
  refine ⟨hfst, ?_, rfl, rfl, rfl, rfl, rfl, ?_, ?_, ?_⟩
  · rw [hsnd]
    exact find?_map_update db.rows id u r hfind'
  · intro row hrow hne
    rw [hsnd]
    refine List.mem_map.mpr ⟨row, hrow, ?_⟩
    rw [if_neg (by simpa using hne)]
  · intro hu
    subst hu
    rw [hsnd]
    have hid : (fun x : HotelDB => if x.id == id then applyUpdate {} x else x) =
        fun x => x := by
      funext x
      split
      · exact applyUpdate_empty x
      · rfl
    rw [hid]
    simp
  · intro c hu
    subst hu
    rfl

/-- Witness for C2 on a concrete one-row store and a city-only update. -/
theorem update_merge_frame_witness :
    (Store.mk [⟨1, "Paris", "Nice", "Hotel A", 4⟩]).findRow 1 =
      some ⟨1, "Paris", "Nice", "Hotel A", 4⟩ ∧
    (update_hotel 1 { city := some "X" } (Store.mk [⟨1, "Paris", "Nice", "Hotel A", 4⟩])).1 =
      ApiResult.success 200
        (Hotel.model_validate (applyUpdate { city := some "X" }
          ⟨1, "Paris", "Nice", "Hotel A", 4⟩)) :=
  ⟨rfl, (update_merge_frame (Store.mk [⟨1, "Paris", "Nice", "Hotel A", 4⟩]) 1
    { city := some "X" } ⟨1, "Paris", "Nice", "Hotel A", 4⟩ rfl).1⟩

/-- C4: for an id absent from the store, GET, PUT and DELETE by id each
fail with a 404 whose detail string names the missing id, and the store is
returned unchanged; for a present id, none of the three returns a 404. -/
theorem missing_id_yields_404 (id : Int) (db : Store) (u : HotelUpdate) :
    (db.findRow id = none →
      get_hotel_by_id id db = ApiResult.httpError 404 (notFoundDetail id) ∧
      update_hotel id u db = (ApiResult.httpError 404 (notFoundDetail id), db) ∧
      delete_hotel id db = (ApiResult.httpError 404 (notFoundDetail id), db)) ∧
    (db.findRow id ≠ none →
      (get_hotel_by_id id db).isNotFound = false ∧
      (update_hotel id u db).1.isNotFound = false ∧
      (delete_hotel id db).1.isNotFound = false) := by
  constructor
  · intro h
    refine ⟨?_, ?_, ?_⟩ <;> simp [get_hotel_by_id, update_hotel, delete_hotel, h]
  · intro h
    cases hf : db.findRow id with
    | none => exact absurd hf h
    | some r =>
      refine ⟨?_, ?_, ?_⟩ <;>
        simp [get_hotel_by_id, update_hotel, delete_hotel, ApiResult.isNotFound, hf]

/-- Witness for C4 at id 7 on the empty store. -/
theorem missing_id_yields_404_witness :
    emptyStore.findRow 7 = none ∧
    get_hotel_by_id 7 emptyStore = ApiResult.httpError 404 (notFoundDetail 7) :=
  ⟨rfl, ((missing_id_yields_404 7 emptyStore {}).1 rfl).1⟩

/-- C7: a create whose rating is outside 1..5 is rejected with a 422
before any store mutation, and otherwise reaches the store; an update
supplying a rating outside 1..5 is likewise rejected with the store
unchanged; an update omitting the rating passes validation and performs no
merge for that field. -/
theorem rating_validation_422 (p : HotelCreate) (id : Int) (u : HotelUpdate) (db : Store) :
    (¬(1 ≤ p.rating ∧ p.rating ≤ 5) →
      create_request p db = (ApiResult.httpError 422 "validation error", db)) ∧
    ((1 ≤ p.rating ∧ p.rating ≤ 5) →
      create_request p db =
        (ApiResult.success 201 (create_hotel p db).1, (create_hotel p db).2)) ∧
    (∀ v, u.rating = some v → ¬(1 ≤ v ∧ v ≤ 5) →
      update_request id u db = (ApiResult.httpError 422 "validation error", db)) ∧
    (u.rating = none →
      update_request id u db = update_hotel id u db ∧
      ∀ h : HotelDB, (applyUpdate u h).rating = h.rating) := by
  refine ⟨?_, ?_, ?_, ?_⟩
  · intro h
    have hok : p.ratingOk = false := by
      simp only [HotelCreate.ratingOk, Bool.and_eq_false_iff, decide_eq_false_iff_not]
      omega
    simp [create_request, hok]
  · intro h
    have hok : p.ratingOk = true := (ratingOk_iff p).mpr h
    simp [create_request, hok]
  · intro v hv h
    have hok : u.ratingOk = false := by
      simp only [HotelUpdate.ratingOk, hv, Bool.and_eq_false_iff, decide_eq_false_iff_not]
      omega
    simp [update_request, hok]
  · intro hv
    have hok : u.ratingOk = true := by simp [HotelUpdate.ratingOk, hv]
    exact ⟨by simp [update_request, hok], fun h => by simp [applyUpdate, hv]⟩

/-- Witness for C7: creating with rating 6 and with rating 0 is rejected
with a 422 and the empty store is unchanged. -/
theorem rating_validation_422_witness :
    ¬(1 ≤ (6 : Int) ∧ (6 : Int) ≤ 5) ∧
    create_request { city := "c", description := "d", name := "n", rating := 6 } emptyStore =
      (ApiResult.httpError 422 "validation error", emptyStore) ∧
    create_request { city := "c", description := "d", name := "n", rating := 0 } emptyStore =
      (ApiResult.httpError 422 "validation error", emptyStore) :=
  ⟨by decide,
   (rating_validation_422 { city := "c", description := "d", name := "n", rating := 6 }
     0 {} emptyStore).1 (by decide),
   (rating_validation_422 { city := "c", description := "d", name := "n", rating := 0 }
     0 {} emptyStore).1 (by decide)⟩

/-- C8: after any sequence of create, update and delete requests served
from a fresh store through the public interface, the stored rows have
pairwise distinct ids and every stored rating lies in 1..5. -/
theorem run_preserves_invariants (ops : List Op) : StoreWF (run ops) :=
  StoreWF_foldl ops emptyStore StoreWF_empty

end HotelsApi
